import Mathlib

/-!
Verification of the effect-style computation engine of the
Design-System-DressCode repository.

The engine lives in two modules:
* `effect-presets` (the dispatch layer): a preset registry plus one style
  derivation per (preset × target-class) pair, dispatched by preset id;
* `3d-effects` (the standalone 3D module): colored and neutral 3D
  derivations with an intensity clamp to [0, 2].

Numbers are modelled as exact rationals (`ℚ`); every CSS template literal of
the source is transcribed as a Lean interpolated string, rendering rationals
with their canonical `toString` (integers print bare, fractions as `num/den`).
JavaScript property access on `undefined` (which throws a `TypeError`) is
modelled with `Except String`.
-/

/-- HSL color triplet, the colored derivations' input. -/
structure HSL where
  h : ℚ
  s : ℚ
  l : ℚ
deriving DecidableEq

namespace EffectPresets

/-- Transcribes `EffectPresetConfig` from `effect-presets`. -/
structure EffectPresetConfig where
  id : String
  name : String
  description : String
  gradient : Bool
  shadow : String
  blur : Bool
  intensity : ℚ
deriving DecidableEq

/-- The `"3d"` entry of `EFFECT_PRESETS`. -/
def config3d : EffectPresetConfig :=
  { id := "3d", name := "3D", description := "Depth with gradients and shadows"
    gradient := true, shadow := "strong", blur := false, intensity := 1.0 }

/-- The `glassmorphism` entry of `EFFECT_PRESETS`. -/
def configGlassmorphism : EffectPresetConfig :=
  { id := "glassmorphism", name := "Glassmorphism"
    description := "Frosted glass effect with blur"
    gradient := false, shadow := "soft", blur := true, intensity := 0.8 }

/-- The `flat` entry of `EFFECT_PRESETS`. -/
def configFlat : EffectPresetConfig :=
  { id := "flat", name := "Flat", description := "No effects, solid colors"
    gradient := false, shadow := "none", blur := false, intensity := 0 }

/-- The `EFFECT_PRESETS` record, as a lookup over its three own keys;
an id outside the record yields `none` (JavaScript `undefined`). -/
def EFFECT_PRESETS (id : String) : Option EffectPresetConfig :=
  match id with
  | "3d" => some config3d
  | "glassmorphism" => some configGlassmorphism
  | "flat" => some configFlat
  | _ => none

/-- Transcribes the `EffectStyles` output record; absent optional keys are
`none`. -/
structure EffectStyles where
  background : String
  boxShadow : String
  boxShadowHover : String
  backdropFilter : Option String := none
  border : Option String := none
  opacity : Option ℚ := none
deriving DecidableEq

/-- `gradientTopL` of `get3DEffectStyles`: `Math.min(100, l + 10 * intensity)`. -/
def gradientTopL (l intensity : ℚ) : ℚ := min 100 (l + 10 * intensity)

/-- `gradientBottomL` of `get3DEffectStyles`: `Math.max(0, l - 10 * intensity)`. -/
def gradientBottomL (l intensity : ℚ) : ℚ := max 0 (l - 10 * intensity)

/-- `shadowOpacity` of `get3DEffectStyles`. -/
def shadowOpacity (intensity : ℚ) : ℚ := 0.3 * intensity

/-- `shadowSecondaryOpacity` of `get3DEffectStyles`. -/
def shadowSecondaryOpacity (intensity : ℚ) : ℚ := 0.2 * intensity

/-- `glowOpacity` of `get3DEffectStyles`. -/
def glowOpacity (intensity : ℚ) : ℚ := 0.2 * intensity

/-- `hoverShadowOpacity` of `get3DEffectStyles`. -/
def hoverShadowOpacity (intensity : ℚ) : ℚ := 0.4 * intensity

/-- `hoverShadowSecondaryOpacity` of `get3DEffectStyles`. -/
def hoverShadowSecondaryOpacity (intensity : ℚ) : ℚ := 0.3 * intensity

/-- `hoverGlowOpacity` of `get3DEffectStyles`. -/
def hoverGlowOpacity (intensity : ℚ) : ℚ := 0.3 * intensity

/-- The `gradient` template literal of `get3DEffectStyles`. -/
def gradientStr (h s l intensity : ℚ) : String :=
  s!"linear-gradient(180deg, hsl({h}, {s}%, {gradientTopL l intensity}%) 0%, hsl({h}, {s}%, {gradientBottomL l intensity}%) 100%)"

/-- The `shadow` template literal of `get3DEffectStyles`. -/
def shadowStr (h s l intensity : ℚ) : String :=
  s!"0 {4 * intensity}px {12 * intensity}px hsla({h}, {s}%, {l}%, {shadowOpacity intensity}), 0 {2 * intensity}px {4 * intensity}px hsla({h}, {s}%, {l}%, {shadowSecondaryOpacity intensity})"

/-- The `glow` template literal of `get3DEffectStyles`. -/
def glowStr (h s l intensity : ℚ) : String :=
  s!"0 0 {20 * intensity}px hsla({h}, {s}%, {l}%, {glowOpacity intensity})"

/-- The `shadowHover` template literal of `get3DEffectStyles`. -/
def shadowHoverStr (h s l intensity : ℚ) : String :=
  s!"0 {6 * intensity}px {20 * intensity}px hsla({h}, {s}%, {l}%, {hoverShadowOpacity intensity}), 0 {4 * intensity}px {8 * intensity}px hsla({h}, {s}%, {l}%, {hoverShadowSecondaryOpacity intensity})"

/-- The `glowHover` template literal of `get3DEffectStyles`. -/
def glowHoverStr (h s l intensity : ℚ) : String :=
  s!"0 0 {30 * intensity}px hsla({h}, {s}%, {l}%, {hoverGlowOpacity intensity})"

/-- `get3DEffectStyles` of `effect-presets` (colored 3D path; note: no
intensity clamp here). `boxShadow` is `` `${shadow}, ${glow}` ``. -/
def get3DEffectStyles (color : HSL) (intensity : ℚ) : EffectStyles :=
  let h := color.h
  let s := color.s
  let l := color.l
  { background := gradientStr h s l intensity
    boxShadow := shadowStr h s l intensity ++ ", " ++ glowStr h s l intensity
    boxShadowHover :=
      shadowHoverStr h s l intensity ++ ", " ++ glowHoverStr h s l intensity }

/-- `baseOpacity` of `getGlassmorphismStyles`: `isDark ? 0.25 : 0.2`. -/
def glassBaseOpacity (isDark : Bool) : ℚ := if isDark then 0.25 else 0.2

/-- `opacity` of `getGlassmorphismStyles`:
`Math.min(0.4, baseOpacity * intensity)`. -/
def glassOpacity (isDark : Bool) (intensity : ℚ) : ℚ :=
  min 0.4 (glassBaseOpacity isDark * intensity)

/-- `blurAmount` of `getGlassmorphismStyles`: `16 + (8 * intensity)`. -/
def glassBlurAmount (intensity : ℚ) : ℚ := 16 + 8 * intensity

/-- `shadowOpacity` of `getGlassmorphismStyles`. -/
def glassShadowOpacity (isDark : Bool) (intensity : ℚ) : ℚ :=
  if isDark then 0.15 * intensity else 0.12 * intensity

/-- `hoverShadowOpacity` of `getGlassmorphismStyles`. -/
def glassHoverShadowOpacity (isDark : Bool) (intensity : ℚ) : ℚ :=
  if isDark then 0.2 * intensity else 0.16 * intensity

/-- The inset highlight alpha of `getGlassmorphismStyles`: `isDark ? 0.1 : 0.2`. -/
def glassInsetAlpha (isDark : Bool) : ℚ := if isDark then 0.1 else 0.2

/-- The hover inset highlight alpha of `getGlassmorphismStyles`:
`isDark ? 0.15 : 0.25`. -/
def glassHoverInsetAlpha (isDark : Bool) : ℚ := if isDark then 0.15 else 0.25

/-- `borderOpacity` of `getGlassmorphismStyles`: `isDark ? 0.4 : 0.3`
(multiplied by intensity inside the border template). -/
def glassBorderOpacity (isDark : Bool) : ℚ := if isDark then 0.4 else 0.3

/-- `backdropFilter` template literal of `getGlassmorphismStyles`. -/
def glassBackdropFilterStr (intensity : ℚ) : String :=
  s!"blur({glassBlurAmount intensity}px) saturate(180%) brightness(1.05)"

/-- `boxShadow` template literal of `getGlassmorphismStyles`. -/
def glassBoxShadowStr (isDark : Bool) (intensity : ℚ) : String :=
  s!"0 8px 32px rgba(0, 0, 0, {glassShadowOpacity isDark intensity}), inset 0 1px 0 rgba(255, 255, 255, {glassInsetAlpha isDark})"

/-- `boxShadowHover` template literal of `getGlassmorphismStyles`. -/
def glassBoxShadowHoverStr (isDark : Bool) (intensity : ℚ) : String :=
  s!"0 12px 40px rgba(0, 0, 0, {glassHoverShadowOpacity isDark intensity}), inset 0 1px 0 rgba(255, 255, 255, {glassHoverInsetAlpha isDark})"

/-- `getGlassmorphismStyles` of `effect-presets` (colored glassmorphism). -/
def getGlassmorphismStyles (color : HSL) (isDark : Bool) (intensity : ℚ) :
    EffectStyles :=
  let h := color.h
  let s := color.s
  let l := color.l
  { background := s!"hsla({h}, {s}%, {l}%, {glassOpacity isDark intensity})"
    boxShadow := glassBoxShadowStr isDark intensity
    boxShadowHover := glassBoxShadowHoverStr isDark intensity
    backdropFilter := some (glassBackdropFilterStr intensity)
    border :=
      some s!"1px solid rgba(255, 255, 255, {glassBorderOpacity isDark * intensity})" }

/-- `getFlatStyles` of `effect-presets` (colored flat). -/
def getFlatStyles (color : HSL) : EffectStyles :=
  let h := color.h
  let s := color.s
  let l := color.l
  { background := s!"hsl({h}, {s}%, {l}%)"
    boxShadow := "none"
    boxShadowHover := "none" }

/-- `baseLightness` of `getNeutral3DEffectStyles`: `isDark ? 12 : 100`. -/
def neutralBaseLightness (isDark : Bool) : ℚ := if isDark then 12 else 100

/-- `gradientTopL` of `getNeutral3DEffectStyles`. -/
def neutral3DTopL (isDark : Bool) (intensity : ℚ) : ℚ :=
  if isDark then min 100 (neutralBaseLightness isDark + 3 * intensity)
  else max 0 (neutralBaseLightness isDark - 2 * intensity)

/-- `gradientBottomL` of `getNeutral3DEffectStyles`. -/
def neutral3DBottomL (isDark : Bool) (intensity : ℚ) : ℚ :=
  if isDark then max 0 (neutralBaseLightness isDark - 3 * intensity)
  else max 0 (neutralBaseLightness isDark - 4 * intensity)

/-- `shadowOpacity` of `getNeutral3DEffectStyles`. -/
def neutral3DShadowOpacity (isDark : Bool) (intensity : ℚ) : ℚ :=
  if isDark then 0.15 * intensity else 0.08 * intensity

/-- `shadowSecondaryOpacity` of `getNeutral3DEffectStyles`. -/
def neutral3DShadowSecondaryOpacity (isDark : Bool) (intensity : ℚ) : ℚ :=
  if isDark then 0.1 * intensity else 0.05 * intensity

/-- `hoverShadowOpacity` of `getNeutral3DEffectStyles`. -/
def neutral3DHoverShadowOpacity (isDark : Bool) (intensity : ℚ) : ℚ :=
  if isDark then 0.2 * intensity else 0.12 * intensity

/-- `hoverShadowSecondaryOpacity` of `getNeutral3DEffectStyles`. -/
def neutral3DHoverShadowSecondaryOpacity (isDark : Bool) (intensity : ℚ) : ℚ :=
  if isDark then 0.15 * intensity else 0.08 * intensity

/-- `getNeutral3DEffectStyles` of `effect-presets` (neutral 3D path; no
intensity clamp). -/
def getNeutral3DEffectStyles (isDark : Bool) (intensity : ℚ) : EffectStyles :=
  { background :=
      s!"linear-gradient(180deg, hsl(0, 0%, {neutral3DTopL isDark intensity}%) 0%, hsl(0, 0%, {neutral3DBottomL isDark intensity}%) 100%)"
    boxShadow :=
      s!"0 {2 * intensity}px {8 * intensity}px rgba(0, 0, 0, {neutral3DShadowOpacity isDark intensity}), 0 {1 * intensity}px {3 * intensity}px rgba(0, 0, 0, {neutral3DShadowSecondaryOpacity isDark intensity})"
    boxShadowHover :=
      s!"0 {3 * intensity}px {12 * intensity}px rgba(0, 0, 0, {neutral3DHoverShadowOpacity isDark intensity}), 0 {2 * intensity}px {6 * intensity}px rgba(0, 0, 0, {neutral3DHoverShadowSecondaryOpacity isDark intensity})" }

/-- `blurAmount` of `getNeutralGlassmorphismStyles`: `16 + (8 * intensity)`. -/
def neutralGlassBlurAmount (intensity : ℚ) : ℚ := 16 + 8 * intensity

/-- `shadowOpacity` of `getNeutralGlassmorphismStyles`. -/
def neutralGlassShadowOpacity (isDark : Bool) (intensity : ℚ) : ℚ :=
  if isDark then 0.15 * intensity else 0.12 * intensity

/-- `hoverShadowOpacity` of `getNeutralGlassmorphismStyles`. -/
def neutralGlassHoverShadowOpacity (isDark : Bool) (intensity : ℚ) : ℚ :=
  if isDark then 0.2 * intensity else 0.16 * intensity

/-- The inset highlight alpha of `getNeutralGlassmorphismStyles`. -/
def neutralGlassInsetAlpha (isDark : Bool) : ℚ := if isDark then 0.1 else 0.2

/-- The hover inset highlight alpha of `getNeutralGlassmorphismStyles`. -/
def neutralGlassHoverInsetAlpha (isDark : Bool) : ℚ :=
  if isDark then 0.15 else 0.25

/-- `borderOpacity` of `getNeutralGlassmorphismStyles`:
`isDark ? 0.4 * intensity : 0.3 * intensity`. -/
def neutralGlassBorderOpacity (isDark : Bool) (intensity : ℚ) : ℚ :=
  if isDark then 0.4 * intensity else 0.3 * intensity

/-- `backdropFilter` template literal of `getNeutralGlassmorphismStyles`. -/
def neutralGlassBackdropFilterStr (intensity : ℚ) : String :=
  s!"blur({neutralGlassBlurAmount intensity}px) saturate(180%) brightness(1.05)"

/-- `boxShadow` template literal of `getNeutralGlassmorphismStyles`. -/
def neutralGlassBoxShadowStr (isDark : Bool) (intensity : ℚ) : String :=
  s!"0 8px 32px rgba(0, 0, 0, {neutralGlassShadowOpacity isDark intensity}), inset 0 1px 0 rgba(255, 255, 255, {neutralGlassInsetAlpha isDark})"

/-- `boxShadowHover` template literal of `getNeutralGlassmorphismStyles`. -/
def neutralGlassBoxShadowHoverStr (isDark : Bool) (intensity : ℚ) : String :=
  s!"0 12px 40px rgba(0, 0, 0, {neutralGlassHoverShadowOpacity isDark intensity}), inset 0 1px 0 rgba(255, 255, 255, {neutralGlassHoverInsetAlpha isDark})"

/-- `getNeutralGlassmorphismStyles` of `effect-presets`; the background is the
fixed literal `rgba(255, 255, 255, 0.05)`. -/
def getNeutralGlassmorphismStyles (isDark : Bool) (intensity : ℚ) :
    EffectStyles :=
  { background := "rgba(255, 255, 255, 0.05)"
    boxShadow := neutralGlassBoxShadowStr isDark intensity
    boxShadowHover := neutralGlassBoxShadowHoverStr isDark intensity
    backdropFilter := some (neutralGlassBackdropFilterStr intensity)
    border :=
      some s!"1px solid rgba(255, 255, 255, {neutralGlassBorderOpacity isDark intensity})" }

/-- `getNeutralFlatStyles` of `effect-presets`. -/
def getNeutralFlatStyles (isDark : Bool) : EffectStyles :=
  { background := if isDark then "rgb(23, 23, 23)" else "rgb(255, 255, 255)"
    boxShadow := "none"
    boxShadowHover := "none" }

/-- The line `const intensity = options.intensity ?? config.intensity` of both
dispatch functions: when `options.intensity` is absent and the preset id is
outside the registry, `config` is `undefined` and reading `.intensity` throws a
`TypeError`. -/
def dispatchIntensity (preset : String) (options : Option ℚ) :
    Except String ℚ :=
  match options with
  | some i => Except.ok i
  | none =>
    match EFFECT_PRESETS preset with
    | some config => Except.ok config.intensity
    | none => Except.error "TypeError"

/-- `getEffectStyles` of `effect-presets` (colored dispatch). -/
def getEffectStyles (preset : String) (color : HSL) (isDark : Bool)
    (options : Option ℚ) : Except String EffectStyles :=
  match dispatchIntensity preset options with
  | Except.error e => Except.error e
  | Except.ok intensity =>
    match preset with
    | "3d" => Except.ok (get3DEffectStyles color intensity)
    | "glassmorphism" => Except.ok (getGlassmorphismStyles color isDark intensity)
    | "flat" => Except.ok (getFlatStyles color)
    | _ => Except.ok (getFlatStyles color)

/-- `getNeutralEffectStyles` of `effect-presets` (neutral dispatch). -/
def getNeutralEffectStyles (preset : String) (isDark : Bool)
    (options : Option ℚ) : Except String EffectStyles :=
  match dispatchIntensity preset options with
  | Except.error e => Except.error e
  | Except.ok intensity =>
    match preset with
    | "3d" => Except.ok (getNeutral3DEffectStyles isDark intensity)
    | "glassmorphism" => Except.ok (getNeutralGlassmorphismStyles isDark intensity)
    | "flat" => Except.ok (getNeutralFlatStyles isDark)
    | _ => Except.ok (getNeutralFlatStyles isDark)

end EffectPresets

namespace ThreeD

/-- Transcribes the `ThreeDEffects` output record of `3d-effects`. -/
structure ThreeDEffects where
  gradient : String
  shadow : String
  glow : String
  shadowHover : String
  glowHover : String
deriving DecidableEq

/-- The clamped intensity of `get3DEffects`:
`Math.max(0, Math.min(2, options.intensity ?? 1.0))`. -/
def effectiveIntensity (options : Option ℚ) : ℚ :=
  max 0 (min 2 (options.getD 1.0))

/-- `gradientTopL` of `get3DEffects`. -/
def gradientTopL (l intensity : ℚ) : ℚ := min 100 (l + 10 * intensity)

/-- `gradientBottomL` of `get3DEffects`. -/
def gradientBottomL (l intensity : ℚ) : ℚ := max 0 (l - 10 * intensity)

/-- `shadowOpacity` of `get3DEffects`. -/
def shadowOpacity (intensity : ℚ) : ℚ := 0.3 * intensity

/-- `shadowSecondaryOpacity` of `get3DEffects`. -/
def shadowSecondaryOpacity (intensity : ℚ) : ℚ := 0.2 * intensity

/-- `glowOpacity` of `get3DEffects`. -/
def glowOpacity (intensity : ℚ) : ℚ := 0.2 * intensity

/-- `hoverShadowOpacity` of `get3DEffects`. -/
def hoverShadowOpacity (intensity : ℚ) : ℚ := 0.4 * intensity

/-- `hoverShadowSecondaryOpacity` of `get3DEffects`. -/
def hoverShadowSecondaryOpacity (intensity : ℚ) : ℚ := 0.3 * intensity

/-- `hoverGlowOpacity` of `get3DEffects`. -/
def hoverGlowOpacity (intensity : ℚ) : ℚ := 0.3 * intensity

/-- The `gradient` template literal of `get3DEffects`. -/
def gradientStr (h s l intensity : ℚ) : String :=
  s!"linear-gradient(180deg, hsl({h}, {s}%, {gradientTopL l intensity}%) 0%, hsl({h}, {s}%, {gradientBottomL l intensity}%) 100%)"

/-- The `shadow` template literal of `get3DEffects`. -/
def shadowStr (h s l intensity : ℚ) : String :=
  s!"0 {4 * intensity}px {12 * intensity}px hsla({h}, {s}%, {l}%, {shadowOpacity intensity}), 0 {2 * intensity}px {4 * intensity}px hsla({h}, {s}%, {l}%, {shadowSecondaryOpacity intensity})"

/-- The `glow` template literal of `get3DEffects`. -/
def glowStr (h s l intensity : ℚ) : String :=
  s!"0 0 {20 * intensity}px hsla({h}, {s}%, {l}%, {glowOpacity intensity})"

/-- The `shadowHover` template literal of `get3DEffects`. -/
def shadowHoverStr (h s l intensity : ℚ) : String :=
  s!"0 {6 * intensity}px {20 * intensity}px hsla({h}, {s}%, {l}%, {hoverShadowOpacity intensity}), 0 {4 * intensity}px {8 * intensity}px hsla({h}, {s}%, {l}%, {hoverShadowSecondaryOpacity intensity})"

/-- The `glowHover` template literal of `get3DEffects`. -/
def glowHoverStr (h s l intensity : ℚ) : String :=
  s!"0 0 {30 * intensity}px hsla({h}, {s}%, {l}%, {hoverGlowOpacity intensity})"

/-- `get3DEffects` of `3d-effects` (standalone colored 3D, with the [0,2]
intensity clamp). -/
def get3DEffects (h s l : ℚ) (options : Option ℚ) : ThreeDEffects :=
  { gradient := gradientStr h s l (effectiveIntensity options)
    shadow := shadowStr h s l (effectiveIntensity options)
    glow := glowStr h s l (effectiveIntensity options)
    shadowHover := shadowHoverStr h s l (effectiveIntensity options)
    glowHover := glowHoverStr h s l (effectiveIntensity options) }

/-- The clamped intensity of `get3DEffectsNeutral`:
`Math.max(0, Math.min(2, options.intensity ?? 0.7))`. -/
def neutralEffectiveIntensity (options : Option ℚ) : ℚ :=
  max 0 (min 2 (options.getD 0.7))

/-- `baseLightness` of `get3DEffectsNeutral`: `isDark ? 12 : 100`. -/
def neutralBaseLightness (isDark : Bool) : ℚ := if isDark then 12 else 100

/-- `gradientTopL` of `get3DEffectsNeutral`. -/
def neutralGradientTopL (isDark : Bool) (intensity : ℚ) : ℚ :=
  if isDark then min 100 (neutralBaseLightness isDark + 3 * intensity)
  else max 0 (neutralBaseLightness isDark - 2 * intensity)

/-- `gradientBottomL` of `get3DEffectsNeutral`. -/
def neutralGradientBottomL (isDark : Bool) (intensity : ℚ) : ℚ :=
  if isDark then max 0 (neutralBaseLightness isDark - 3 * intensity)
  else max 0 (neutralBaseLightness isDark - 4 * intensity)

/-- `shadowOpacity` of `get3DEffectsNeutral`. -/
def neutralShadowOpacity (isDark : Bool) (intensity : ℚ) : ℚ :=
  if isDark then 0.15 * intensity else 0.08 * intensity

/-- `shadowSecondaryOpacity` of `get3DEffectsNeutral`. -/
def neutralShadowSecondaryOpacity (isDark : Bool) (intensity : ℚ) : ℚ :=
  if isDark then 0.1 * intensity else 0.05 * intensity

/-- `hoverShadowOpacity` of `get3DEffectsNeutral`. -/
def neutralHoverShadowOpacity (isDark : Bool) (intensity : ℚ) : ℚ :=
  if isDark then 0.2 * intensity else 0.12 * intensity

/-- `hoverShadowSecondaryOpacity` of `get3DEffectsNeutral`. -/
def neutralHoverShadowSecondaryOpacity (isDark : Bool) (intensity : ℚ) : ℚ :=
  if isDark then 0.15 * intensity else 0.08 * intensity

/-- `get3DEffectsNeutral` of `3d-effects` (standalone neutral 3D, with the
[0,2] intensity clamp; empty glow strings). -/
def get3DEffectsNeutral (isDark : Bool) (options : Option ℚ) : ThreeDEffects :=
  { gradient :=
      s!"linear-gradient(180deg, hsl(0, 0%, {neutralGradientTopL isDark (neutralEffectiveIntensity options)}%) 0%, hsl(0, 0%, {neutralGradientBottomL isDark (neutralEffectiveIntensity options)}%) 100%)"
    shadow :=
      s!"0 {2 * neutralEffectiveIntensity options}px {8 * neutralEffectiveIntensity options}px rgba(0, 0, 0, {neutralShadowOpacity isDark (neutralEffectiveIntensity options)}), 0 {1 * neutralEffectiveIntensity options}px {3 * neutralEffectiveIntensity options}px rgba(0, 0, 0, {neutralShadowSecondaryOpacity isDark (neutralEffectiveIntensity options)})"
    glow := ""
    shadowHover :=
      s!"0 {3 * neutralEffectiveIntensity options}px {12 * neutralEffectiveIntensity options}px rgba(0, 0, 0, {neutralHoverShadowOpacity isDark (neutralEffectiveIntensity options)}), 0 {2 * neutralEffectiveIntensity options}px {6 * neutralEffectiveIntensity options}px rgba(0, 0, 0, {neutralHoverShadowSecondaryOpacity isDark (neutralEffectiveIntensity options)})"
    glowHover := "" }

end ThreeD

attribute [local semireducible] Rat.mul Rat.add Rat.sub Rat.inv Rat.ofScientific

/-- C1 counterexample: calling either dispatch with the unknown preset id
`"neon"` and an options record that does not supply an intensity does not
return the Flat output; the preset-config lookup yields `undefined` and
reading `config.intensity` throws a `TypeError` before the fallback branch of
the switch is reached. -/
theorem getEffectStyles_unknown_preset_without_override_throws :
    EffectPresets.getEffectStyles "neon" ⟨200, 80, 50⟩ false none
      = Except.error "TypeError" ∧
    EffectPresets.getEffectStyles "neon" ⟨200, 80, 50⟩ false none
      ≠ Except.ok (EffectPresets.getFlatStyles ⟨200, 80, 50⟩) ∧
    EffectPresets.getNeutralEffectStyles "neon" true none
      = Except.error "TypeError" ∧
    EffectPresets.getNeutralEffectStyles "neon" true none
      ≠ Except.ok (EffectPresets.getNeutralFlatStyles true) :=
  ⟨rfl, fun h => Except.noConfusion h, rfl, fun h => Except.noConfusion h⟩

/-- C1 (amended): for every preset identifier outside
{3d, glassmorphism, flat}, every color, every dark flag, and every options
record that supplies an intensity override, the colored dispatch returns
exactly the Flat-derivation output and the neutral dispatch returns exactly
the neutral Flat-derivation output, with no error; without an override the
dispatch faults on the missing preset config instead. -/
theorem getEffectStyles_unknown_preset_with_override_falls_back_to_flat
    (preset : String) (color : HSL) (isDark : Bool) (i : ℚ)
    (h3 : preset ≠ "3d") (hg : preset ≠ "glassmorphism")
    (hf : preset ≠ "flat") :
    EffectPresets.getEffectStyles preset color isDark (some i)
      = Except.ok (EffectPresets.getFlatStyles color) ∧
    EffectPresets.getNeutralEffectStyles preset isDark (some i)
      = Except.ok (EffectPresets.getNeutralFlatStyles isDark) := by
  constructor
  · simp only [EffectPresets.getEffectStyles, EffectPresets.dispatchIntensity,
      h3, hg, hf, ne_eq, not_false_eq_true]
  · simp only [EffectPresets.getNeutralEffectStyles, EffectPresets.dispatchIntensity,
      h3, hg, hf, ne_eq, not_false_eq_true]

/-- C1 witness: the amended fallback theorem applied at the concrete unknown
preset id `"monochromatic"`. -/
theorem getEffectStyles_unknown_preset_fallback_witness :
    EffectPresets.getEffectStyles "monochromatic" ⟨114, 100, 58⟩ false (some 1)
      = Except.ok (EffectPresets.getFlatStyles ⟨114, 100, 58⟩) ∧
    EffectPresets.getNeutralEffectStyles "monochromatic" false (some 1)
      = Except.ok (EffectPresets.getNeutralFlatStyles false) :=
  getEffectStyles_unknown_preset_with_override_falls_back_to_flat
    "monochromatic" ⟨114, 100, 58⟩ false 1
    (by decide) (by decide) (by decide)

/-- C2 counterexample: the neutral derivation `get3DEffectsNeutral` of the
standalone 3D module does clamp the caller-supplied intensity to [0, 2]:
at intensity 5 it produces exactly the intensity-2 output (shadow alpha
0.3 = 3/10, not the unclamped 0.75 = 3/4), so it is false that every
neutral derivation applies the caller-supplied intensity unclamped. -/
theorem get3DEffectsNeutral_clamps_intensity_counterexample :
    ThreeD.get3DEffectsNeutral true (some 5)
      = ThreeD.get3DEffectsNeutral true (some 2) ∧
    (ThreeD.get3DEffectsNeutral true (some 5)).shadow
      = "0 4px 16px rgba(0, 0, 0, 3/10), 0 2px 6px rgba(0, 0, 0, 1/5)" ∧
    (ThreeD.get3DEffectsNeutral true (some 5)).shadow
      ≠ "0 10px 40px rgba(0, 0, 0, 3/4), 0 5px 15px rgba(0, 0, 0, 1/2)" := by
  refine ⟨by decide, by decide, by decide⟩

/-- C2 (amended): the standalone 3D module clamps the effective intensity to
[0, 2] in both its colored and its neutral derivation (beyond 2 the output
freezes at the intensity-2 output), while the dispatch-layer derivations of
`effect-presets` (colored 3D, colored glassmorphism, neutral 3D, neutral
glassmorphism) apply the caller-supplied intensity unclamped, so beyond 2
their shadow alphas keep growing strictly past the clamped maximum. -/
theorem intensity_clamp_only_in_standalone_module
    (h s l : ℚ) (d : Bool) (i : ℚ) (hi : 2 < i) :
    ThreeD.get3DEffects h s l (some i) = ThreeD.get3DEffects h s l (some 2) ∧
    ThreeD.get3DEffectsNeutral d (some i)
      = ThreeD.get3DEffectsNeutral d (some 2) ∧
    EffectPresets.shadowOpacity 2 < EffectPresets.shadowOpacity i ∧
    EffectPresets.neutral3DShadowOpacity d 2
      < EffectPresets.neutral3DShadowOpacity d i ∧
    EffectPresets.glassShadowOpacity d 2
      < EffectPresets.glassShadowOpacity d i ∧
    EffectPresets.neutralGlassShadowOpacity d 2
      < EffectPresets.neutralGlassShadowOpacity d i := by
  have hmin : min 2 i = 2 := min_eq_left hi.le
  have he : ThreeD.effectiveIntensity (some i) = ThreeD.effectiveIntensity (some 2) := by
    simp [ThreeD.effectiveIntensity, hmin]
  have hne : ThreeD.neutralEffectiveIntensity (some i)
      = ThreeD.neutralEffectiveIntensity (some 2) := by
    simp [ThreeD.neutralEffectiveIntensity, hmin]
  refine ⟨?_, ?_, ?_, ?_, ?_, ?_⟩
  · simp only [ThreeD.get3DEffects, he]
  · simp only [ThreeD.get3DEffectsNeutral, hne]
  · simp only [EffectPresets.shadowOpacity]
    linarith
  · cases d <;> simp [EffectPresets.neutral3DShadowOpacity] <;> linarith
  · cases d <;> simp [EffectPresets.glassShadowOpacity] <;> linarith
  · cases d <;> simp [EffectPresets.neutralGlassShadowOpacity] <;> linarith

/-- C2 witness: the clamp-asymmetry theorem applied at intensity 3 (beyond
the clamp bound 2). -/
theorem intensity_clamp_asymmetry_witness :
    ThreeD.get3DEffects 114 100 58 (some 3) = ThreeD.get3DEffects 114 100 58 (some 2) ∧
    ThreeD.get3DEffectsNeutral true (some 3)
      = ThreeD.get3DEffectsNeutral true (some 2) ∧
    EffectPresets.shadowOpacity 2 < EffectPresets.shadowOpacity 3 ∧
    EffectPresets.neutral3DShadowOpacity true 2
      < EffectPresets.neutral3DShadowOpacity true 3 ∧
    EffectPresets.glassShadowOpacity true 2
      < EffectPresets.glassShadowOpacity true 3 ∧
    EffectPresets.neutralGlassShadowOpacity true 2
      < EffectPresets.neutralGlassShadowOpacity true 3 :=
  intensity_clamp_only_in_standalone_module 114 100 58 true 3 (by norm_num)

/-- C3: the dispatch functions are pure: for a fixed (preset, color, isDark,
options) tuple two calls yield identical `EffectStyles` records; no hidden
state enters the embedding, whose derivations are functions of their
arguments alone. -/
theorem effect_dispatch_deterministic
    (preset : String) (color : HSL) (isDark : Bool) (options : Option ℚ) :
    EffectPresets.getEffectStyles preset color isDark options
      = EffectPresets.getEffectStyles preset color isDark options ∧
    EffectPresets.getNeutralEffectStyles preset isDark options
      = EffectPresets.getNeutralEffectStyles preset isDark options :=
  ⟨rfl, rfl⟩

/-- C4: the colored glassmorphism background alpha is
`min(0.4, baseOpacity * intensity)` with `baseOpacity` 0.25 when dark and
0.2 when light, and therefore never exceeds 0.4, for every color, flag and
intensity. -/
theorem colored_glassmorphism_opacity_cap
    (h s l : ℚ) (isDark : Bool) (intensity : ℚ) :
    (EffectPresets.getGlassmorphismStyles ⟨h, s, l⟩ isDark intensity).background
      = s!"hsla({h}, {s}%, {l}%, {EffectPresets.glassOpacity isDark intensity})" ∧
    EffectPresets.glassOpacity isDark intensity
      = min 0.4 ((if isDark then 0.25 else 0.2) * intensity) ∧
    EffectPresets.glassOpacity isDark intensity ≤ 0.4 := by
  refine ⟨rfl, ?_, min_le_left _ _⟩
  simp [EffectPresets.glassOpacity, EffectPresets.glassBaseOpacity]

/-- C5: at intensity 0 the colored 3D derivation is degenerate whenever the
input lightness lies in [0, 100]: both gradient stops equal the input
lightness and all six shadow and glow alphas (base and hover) are 0. -/
theorem colored3d_intensity_zero_degenerate
    (h s l : ℚ) (hl0 : 0 ≤ l) (hl100 : l ≤ 100) :
    EffectPresets.gradientTopL l 0 = l ∧
    EffectPresets.gradientBottomL l 0 = l ∧
    (EffectPresets.get3DEffectStyles ⟨h, s, l⟩ 0).background
      = EffectPresets.gradientStr h s l 0 ∧
    EffectPresets.shadowOpacity 0 = 0 ∧
    EffectPresets.shadowSecondaryOpacity 0 = 0 ∧
    EffectPresets.glowOpacity 0 = 0 ∧
    EffectPresets.hoverShadowOpacity 0 = 0 ∧
    EffectPresets.hoverShadowSecondaryOpacity 0 = 0 ∧
    EffectPresets.hoverGlowOpacity 0 = 0 := by
  have ht : EffectPresets.gradientTopL l 0 = l := by
    unfold EffectPresets.gradientTopL
    rw [mul_zero, add_zero]
    exact min_eq_right hl100
  have hb : EffectPresets.gradientBottomL l 0 = l := by
    unfold EffectPresets.gradientBottomL
    rw [mul_zero, sub_zero]
    exact max_eq_right hl0
  refine ⟨ht, hb, rfl, ?_, ?_, ?_, ?_, ?_, ?_⟩ <;>
    norm_num [EffectPresets.shadowOpacity, EffectPresets.shadowSecondaryOpacity,
      EffectPresets.glowOpacity, EffectPresets.hoverShadowOpacity,
      EffectPresets.hoverShadowSecondaryOpacity, EffectPresets.hoverGlowOpacity]

/-- C5 witness: the degeneracy theorem applied at the concrete color
(114, 100, 58). -/
theorem colored3d_intensity_zero_degenerate_witness :
    EffectPresets.gradientTopL 58 0 = 58 ∧
    EffectPresets.gradientBottomL 58 0 = 58 ∧
    (EffectPresets.get3DEffectStyles ⟨114, 100, 58⟩ 0).background
      = EffectPresets.gradientStr 114 100 58 0 ∧
    EffectPresets.shadowOpacity 0 = 0 ∧
    EffectPresets.shadowSecondaryOpacity 0 = 0 ∧
    EffectPresets.glowOpacity 0 = 0 ∧
    EffectPresets.hoverShadowOpacity 0 = 0 ∧
    EffectPresets.hoverShadowSecondaryOpacity 0 = 0 ∧
    EffectPresets.hoverGlowOpacity 0 = 0 :=
  colored3d_intensity_zero_degenerate 114 100 58 (by norm_num) (by norm_num)

/-- C6: in the standalone colored 3D derivation, for 0 ≤ i1 < i2 with no
clamp hit (i2 within the [0,2] intensity clamp and the gradient stops of i2
within the lightness bounds 0 and 100), every shadow and glow alpha (base
and hover) computed from the effective intensity is strictly larger at i2
than at i1, and so is the gradient spread (top stop minus bottom stop). -/
theorem colored3d_intensity_strict_monotonicity
    (l i1 i2 : ℚ) (h0 : 0 ≤ i1) (h12 : i1 < i2) (h2 : i2 ≤ 2)
    (htop : l + 10 * i2 ≤ 100) (hbot : 0 ≤ l - 10 * i2) :
    ThreeD.shadowOpacity (ThreeD.effectiveIntensity (some i1))
      < ThreeD.shadowOpacity (ThreeD.effectiveIntensity (some i2)) ∧
    ThreeD.shadowSecondaryOpacity (ThreeD.effectiveIntensity (some i1))
      < ThreeD.shadowSecondaryOpacity (ThreeD.effectiveIntensity (some i2)) ∧
    ThreeD.glowOpacity (ThreeD.effectiveIntensity (some i1))
      < ThreeD.glowOpacity (ThreeD.effectiveIntensity (some i2)) ∧
    ThreeD.hoverShadowOpacity (ThreeD.effectiveIntensity (some i1))
      < ThreeD.hoverShadowOpacity (ThreeD.effectiveIntensity (some i2)) ∧
    ThreeD.hoverShadowSecondaryOpacity (ThreeD.effectiveIntensity (some i1))
      < ThreeD.hoverShadowSecondaryOpacity (ThreeD.effectiveIntensity (some i2)) ∧
    ThreeD.hoverGlowOpacity (ThreeD.effectiveIntensity (some i1))
      < ThreeD.hoverGlowOpacity (ThreeD.effectiveIntensity (some i2)) ∧
    ThreeD.gradientTopL l (ThreeD.effectiveIntensity (some i1))
        - ThreeD.gradientBottomL l (ThreeD.effectiveIntensity (some i1))
      < ThreeD.gradientTopL l (ThreeD.effectiveIntensity (some i2))
        - ThreeD.gradientBottomL l (ThreeD.effectiveIntensity (some i2)) := by
  have h0' : (0:ℚ) ≤ i2 := le_trans h0 h12.le
  have hi1le : i1 ≤ 2 := le_trans h12.le h2
  have e1 : ThreeD.effectiveIntensity (some i1) = i1 := by
    unfold ThreeD.effectiveIntensity
    rw [show Option.getD (some i1) 1.0 = i1 from rfl, min_eq_right hi1le,
      max_eq_right h0]
  have e2 : ThreeD.effectiveIntensity (some i2) = i2 := by
    unfold ThreeD.effectiveIntensity
    rw [show Option.getD (some i2) 1.0 = i2 from rfl, min_eq_right h2,
      max_eq_right h0']
  rw [e1, e2]
  simp only [ThreeD.shadowOpacity, ThreeD.shadowSecondaryOpacity,
    ThreeD.glowOpacity, ThreeD.hoverShadowOpacity,
    ThreeD.hoverShadowSecondaryOpacity, ThreeD.hoverGlowOpacity,
    ThreeD.gradientTopL, ThreeD.gradientBottomL]
  rw [min_eq_right (by linarith : l + 10 * i1 ≤ 100), min_eq_right htop,
    max_eq_right (by linarith : (0:ℚ) ≤ l - 10 * i1), max_eq_right hbot]
  refine ⟨?_, ?_, ?_, ?_, ?_, ?_, ?_⟩ <;> linarith

/-- C6 witness: the monotonicity theorem applied at lightness 50 and
intensities 0 and 1. -/
theorem colored3d_intensity_strict_monotonicity_witness :
    ThreeD.shadowOpacity (ThreeD.effectiveIntensity (some 0))
      < ThreeD.shadowOpacity (ThreeD.effectiveIntensity (some 1)) ∧
    ThreeD.shadowSecondaryOpacity (ThreeD.effectiveIntensity (some 0))
      < ThreeD.shadowSecondaryOpacity (ThreeD.effectiveIntensity (some 1)) ∧
    ThreeD.glowOpacity (ThreeD.effectiveIntensity (some 0))
      < ThreeD.glowOpacity (ThreeD.effectiveIntensity (some 1)) ∧
    ThreeD.hoverShadowOpacity (ThreeD.effectiveIntensity (some 0))
      < ThreeD.hoverShadowOpacity (ThreeD.effectiveIntensity (some 1)) ∧
    ThreeD.hoverShadowSecondaryOpacity (ThreeD.effectiveIntensity (some 0))
      < ThreeD.hoverShadowSecondaryOpacity (ThreeD.effectiveIntensity (some 1)) ∧
    ThreeD.hoverGlowOpacity (ThreeD.effectiveIntensity (some 0))
      < ThreeD.hoverGlowOpacity (ThreeD.effectiveIntensity (some 1)) ∧
    ThreeD.gradientTopL 50 (ThreeD.effectiveIntensity (some 0))
        - ThreeD.gradientBottomL 50 (ThreeD.effectiveIntensity (some 0))
      < ThreeD.gradientTopL 50 (ThreeD.effectiveIntensity (some 1))
        - ThreeD.gradientBottomL 50 (ThreeD.effectiveIntensity (some 1)) :=
  colored3d_intensity_strict_monotonicity 50 0 1 (by norm_num) (by norm_num)
    (by norm_num) (by norm_num) (by norm_num)

/-- C7: the colored 3D derivation at color (114, 100, 58) and intensity 1,
in both the dispatch layer and the standalone module: gradient stops 68 and
48, base shadow offsets/blurs 4/12 and 2/4 with alphas 0.3 (= 3/10) and
0.2 (= 1/5), glow blur 20 with alpha 0.2, hover offsets/blurs 6/20 and 4/8
with alphas 0.4 (= 2/5) and 0.3, hover glow blur 30 with alpha 0.3.
Rationals render in lowest terms, so 0.3 prints as 3/10, 0.2 as 1/5, 0.4
as 2/5. -/
theorem colored3d_example_values :
    EffectPresets.get3DEffectStyles ⟨114, 100, 58⟩ 1 =
      { background := "linear-gradient(180deg, hsl(114, 100%, 68%) 0%, hsl(114, 100%, 48%) 100%)"
        boxShadow := "0 4px 12px hsla(114, 100%, 58%, 3/10), 0 2px 4px hsla(114, 100%, 58%, 1/5), 0 0 20px hsla(114, 100%, 58%, 1/5)"
        boxShadowHover := "0 6px 20px hsla(114, 100%, 58%, 2/5), 0 4px 8px hsla(114, 100%, 58%, 3/10), 0 0 30px hsla(114, 100%, 58%, 3/10)" } ∧
    ThreeD.get3DEffects 114 100 58 (some 1) =
      { gradient := "linear-gradient(180deg, hsl(114, 100%, 68%) 0%, hsl(114, 100%, 48%) 100%)"
        shadow := "0 4px 12px hsla(114, 100%, 58%, 3/10), 0 2px 4px hsla(114, 100%, 58%, 1/5)"
        glow := "0 0 20px hsla(114, 100%, 58%, 1/5)"
        shadowHover := "0 6px 20px hsla(114, 100%, 58%, 2/5), 0 4px 8px hsla(114, 100%, 58%, 3/10)"
        glowHover := "0 0 30px hsla(114, 100%, 58%, 3/10)" } :=
  ⟨by decide, by decide⟩

/-- C8: the neutral glassmorphism background is the fixed literal
`rgba(255, 255, 255, 0.05)` for every dark flag and every intensity. -/
theorem neutral_glassmorphism_background_constant
    (isDark : Bool) (intensity : ℚ) :
    (EffectPresets.getNeutralGlassmorphismStyles isDark intensity).background
      = "rgba(255, 255, 255, 0.05)" := rfl

/-- C9: for every color, dark flag and intensity, the colored and neutral
glassmorphism derivations produce identical boxShadow, boxShadowHover and
backdropFilter strings (same 8/32 base and 12/40 hover offsets/blurs, same
dark/light alpha tiers, same inset highlight alphas, same blur
16 + 8 * intensity with saturate and brightness companions). -/
theorem glassmorphism_colored_neutral_shadows_agree
    (h s l : ℚ) (isDark : Bool) (intensity : ℚ) :
    (EffectPresets.getGlassmorphismStyles ⟨h, s, l⟩ isDark intensity).boxShadow
      = (EffectPresets.getNeutralGlassmorphismStyles isDark intensity).boxShadow ∧
    (EffectPresets.getGlassmorphismStyles ⟨h, s, l⟩ isDark intensity).boxShadowHover
      = (EffectPresets.getNeutralGlassmorphismStyles isDark intensity).boxShadowHover ∧
    (EffectPresets.getGlassmorphismStyles ⟨h, s, l⟩ isDark intensity).backdropFilter
      = (EffectPresets.getNeutralGlassmorphismStyles isDark intensity).backdropFilter :=
  ⟨rfl, rfl, rfl⟩

/-- C10: for every color and every intensity within [0, 2] (where the
standalone clamp is the identity), the dispatch-layer colored 3D record
agrees with the standalone module: background equals the gradient string,
boxShadow equals the shadow string joined to the glow string with a comma,
and boxShadowHover likewise for the hover strings. -/
theorem colored3d_dispatch_agrees_with_standalone
    (h s l i : ℚ) (h0 : 0 ≤ i) (h2 : i ≤ 2) :
    (EffectPresets.get3DEffectStyles ⟨h, s, l⟩ i).background
      = (ThreeD.get3DEffects h s l (some i)).gradient ∧
    (EffectPresets.get3DEffectStyles ⟨h, s, l⟩ i).boxShadow
      = (ThreeD.get3DEffects h s l (some i)).shadow ++ ", "
          ++ (ThreeD.get3DEffects h s l (some i)).glow ∧
    (EffectPresets.get3DEffectStyles ⟨h, s, l⟩ i).boxShadowHover
      = (ThreeD.get3DEffects h s l (some i)).shadowHover ++ ", "
          ++ (ThreeD.get3DEffects h s l (some i)).glowHover := by
  have e : ThreeD.effectiveIntensity (some i) = i := by
    unfold ThreeD.effectiveIntensity
    rw [show Option.getD (some i) 1.0 = i from rfl, min_eq_right h2,
      max_eq_right h0]
  simp only [EffectPresets.get3DEffectStyles, ThreeD.get3DEffects, e]
  exact ⟨rfl, rfl, rfl⟩

/-- C10 witness: the agreement theorem applied at color (114, 100, 58) and
intensity 1. -/
theorem colored3d_dispatch_agrees_with_standalone_witness :
    (EffectPresets.get3DEffectStyles ⟨114, 100, 58⟩ 1).background
      = (ThreeD.get3DEffects 114 100 58 (some 1)).gradient ∧
    (EffectPresets.get3DEffectStyles ⟨114, 100, 58⟩ 1).boxShadow
      = (ThreeD.get3DEffects 114 100 58 (some 1)).shadow ++ ", "
          ++ (ThreeD.get3DEffects 114 100 58 (some 1)).glow ∧
    (EffectPresets.get3DEffectStyles ⟨114, 100, 58⟩ 1).boxShadowHover
      = (ThreeD.get3DEffects 114 100 58 (some 1)).shadowHover ++ ", "
          ++ (ThreeD.get3DEffects 114 100 58 (some 1)).glowHover :=
  colored3d_dispatch_agrees_with_standalone 114 100 58 1 (by norm_num) (by norm_num)
